import Mathlib

/-!
Verification development for the inventiv-agents worker sidecar
(`inventiv-worker/agent.py`): a shallow embedding in Lean 4 of the
metrics-collection and fleet-registration engine, together with theorems
settling the specification's claims about it.

Modelling conventions:
* Python numbers are modelled exactly: machine integers as `Int`/`Nat`,
  floating-point values as `ℚ` (arithmetic performed exactly; the binary
  rounding of Python floats is abstracted away).
* A Python function that may raise is embedded with `Except Unit`; a
  `try/except` catch-all is the `py_try` combinator below.
* HTTP requests are embedded by their observable outcome: `none` (or a
  dedicated `failure` constructor) for a raised transport/parse exception,
  otherwise the status code together with the already-decoded body.
* Python truthiness on strings (`if tok:`) is `tok ≠ ""`; on tuples a
  non-`None` tuple is always truthy; `dict.get` of an absent key is `none`.
-/

/-- Value of a list of decimal digit characters, most significant first. -/
def digits_val (cs : List Char) : Nat :=
  cs.foldl (fun acc c => acc * 10 + (c.toNat - 48)) 0

/-- Exact power `10^e` for an integer exponent, as a rational. -/
def pow10 (e : Int) : ℚ :=
  if 0 ≤ e then ((10 ^ e.toNat : ℕ) : ℚ) else 1 / ((10 ^ (-e).toNat : ℕ) : ℚ)

/-- Python `float(s)` restricted to decimal/exponent literals (the only forms
that can reach it from the metric-token character class `0-9 e E . + -`):
optional sign, digits with an optional dot, optional exponent. Returns `none`
where Python raises `ValueError`. Values are exact rationals. -/
def py_float (s : String) : Option ℚ :=
  let cs0 := s.toList
  let sgn : ℚ := match cs0 with
    | '-' :: _ => -1
    | _ => 1
  let cs1 := match cs0 with
    | '+' :: rest => rest
    | '-' :: rest => rest
    | _ => cs0
  let d1 := cs1.takeWhile Char.isDigit
  let cs2 := cs1.dropWhile Char.isDigit
  let d2 := match cs2 with
    | '.' :: rest => rest.takeWhile Char.isDigit
    | _ => []
  let cs3 := match cs2 with
    | '.' :: rest => rest.dropWhile Char.isDigit
    | _ => cs2
  if d1 = [] ∧ d2 = [] then none
  else
    let mant : ℚ := sgn * (digits_val (d1 ++ d2) : ℚ) / ((10 ^ d2.length : ℕ) : ℚ)
    match cs3 with
    | [] => some mant
    | c :: rest =>
      if c = 'e' ∨ c = 'E' then
        let esgn : Int := match rest with
          | '-' :: _ => -1
          | _ => 1
        let rest1 := match rest with
          | '+' :: r => r
          | '-' :: r => r
          | _ => rest
        let ed := rest1.takeWhile Char.isDigit
        let rest2 := rest1.dropWhile Char.isDigit
        if ed = [] ∨ rest2 ≠ [] then none
        else some (mant * pow10 (esgn * (digits_val ed : Nat)))
      else none

/-- Python `float(s)` as an exception-explicit computation. -/
def py_floatE (s : String) : Except Unit ℚ :=
  match py_float s with
  | some v => .ok v
  | none => .error ()

/-- Python `s.strip()`: drop whitespace from both ends. (Implemented over
the character list so that it evaluates by kernel reduction.) -/
def py_strip (s : String) : String :=
  String.mk (((s.data.dropWhile Char.isWhitespace).reverse.dropWhile
    Char.isWhitespace).reverse)

/-- Python `int(s)` on a string: optional surrounding whitespace, optional
sign, then a non-empty digit run. Raises (`error`) otherwise — in particular
on a doubled sign such as `"--5"`. -/
def py_int (s : String) : Except Unit Int :=
  let cs0 := (py_strip s).toList
  let sgn : Int := match cs0 with
    | '-' :: _ => -1
    | _ => 1
  let cs1 := match cs0 with
    | '+' :: rest => rest
    | '-' :: rest => rest
    | _ => cs0
  let d := cs1.takeWhile Char.isDigit
  let rest := cs1.dropWhile Char.isDigit
  if d = [] ∨ rest ≠ [] then .error ()
  else .ok (sgn * (digits_val d : Nat))

/-- Catch-all `try/except` returning a default: the embedding of
`try: <body> except Exception: return <d>`. -/
def py_try {α : Type} (body : Except Unit α) (d : α) : Except Unit α :=
  match body with
  | .ok v => .ok v
  | .error _ => .ok d

/-- Python `s.split()` (no argument): split on whitespace runs, dropping
empty fields. -/
def py_split_ws (s : String) : List String :=
  (s.split Char.isWhitespace).filter (fun t => t ≠ "")

/-- Python `s.split(sep, 1)`: the part before the first separator and the
(unsplit) remainder. -/
def py_split1 (s : String) (sep : String) : String × String :=
  match s.splitOn sep with
  | [] => (s, "")
  | k :: rest => (k, String.intercalate sep rest)

/-- Split a character list on a separator character, keeping empty groups
(Python `str.split(sep)` semantics). -/
def split_char (sep : Char) : List Char → List (List Char)
  | [] => [[]]
  | c :: cs =>
    let r := split_char sep cs
    if c = sep then [] :: r
    else
      match r with
      | [] => [[c]]
      | g :: gs => (c :: g) :: gs

/-- Python `s.split(sep)` for a one-character separator, over strings. -/
def py_split_char (s : String) (sep : Char) : List String :=
  (split_char sep s.toList).map String.mk

/-- Python `s.isdigit()` (ASCII digits). -/
def is_digit_str (s : String) : Bool :=
  s ≠ "" && s.toList.all Char.isDigit

/-- Boolean success test for an exception-explicit computation. -/
def is_ok {α : Type} : Except Unit α → Bool
  | .ok _ => true
  | .error _ => false

section ReadinessEvaluator

/-- Response of `GET /v1/models` as observed by `check_vllm_ready`
(`agent.py:186-220`): status code paired with the decoded JSON body.
The body is `none` when `resp.json()` raises (malformed JSON, or a shape on
which the subsequent dict accesses raise); otherwise it is the list of
`"id"` fields of the `"data"` entries (`none` for an absent/null id; an
absent or null `"data"` key decodes to the empty list, as `data.get("data",
[]) or []` does). -/
def ModelsResp := Nat × Option (List (Option String))

/-- The model ids that `check_vllm_ready` accumulates: each entry's `id`
field when it is truthy (present and non-empty). -/
def collect_ids (items : List (Option String)) : List String :=
  items.filterMap (fun o =>
    match o with
    | some s => if s ≠ "" then some s else none
    | none => none)

/-- Embedding of `check_vllm_ready` (`agent.py:186-220`): `model_id` is the
configured `MODEL_ID`; `resp = none` is a raised transport exception. -/
def check_vllm_ready (model_id : String) (resp : Option ModelsResp) : Bool :=
  match resp with
  | none => false
  | some (st, body) =>
    if st = 200 then
      match body with
      | none => false
      | some items =>
        if model_id = "" then true
        else (collect_ids items).contains model_id
    else false

end ReadinessEvaluator

section RegistrationClient

/-- Outcome of the registration POST as observed by `register_worker_once`
(`agent.py:767-841`): `failure` is a raised transport exception; `response`
carries the status code and the decoded `bootstrap_token` field (`none` when
the body is absent, undecodable, or has no such field). A non-string token
value is represented by its `str()` rendering. -/
inductive RegResp where
  | failure : RegResp
  | response (status : Nat) (bootstrap_token : Option String) : RegResp
deriving Repr, DecidableEq

/-- Result of one `register_worker_once` call: the returned boolean, the
process-wide credential (`WORKER_AUTH_TOKEN`) after the call, and the
argument of the `_persist_token_to_file` call when one was made. -/
structure RegOutcome where
  ok : Bool
  token : String
  persist_call : Option String
deriving Repr, DecidableEq

/-- Embedding of `_auth_headers` (`agent.py:66-69`). -/
def auth_headers (token : String) : List (String × String) :=
  if token = "" then [] else [("Authorization", "Bearer " ++ token)]

/-- Embedding of `register_worker_once` (`agent.py:767-841`). `config_ok`
is the truthiness of `CONTROL_PLANE_URL and INSTANCE_ID`; `token` is the
credential held before the call. On a 2xx response a truthy bootstrap
token is adopted (stripped) only when the current credential is empty, and
the adopted value is passed to `_persist_token_to_file`. -/
def register_worker_once (config_ok : Bool) (token : String) (resp : RegResp) :
    RegOutcome :=
  if ¬config_ok then ⟨false, token, none⟩
  else
    match resp with
    | .failure => ⟨false, token, none⟩
    | .response st btok =>
      if st / 100 = 2 then
        match btok with
        | some t =>
          if t ≠ "" ∧ token = "" then
            let newTok := py_strip t
            ⟨true, newTok, some newTok⟩
          else ⟨true, token, none⟩
        | none => ⟨true, token, none⟩
      else ⟨false, token, none⟩

/-- Embedding of `_persist_token_to_file` (`agent.py:168-177`): the content
written to the credential file when a file path is configured. -/
def persist_token_to_file (file_configured : Bool) (token : String) :
    Option String :=
  if file_configured then some (py_strip token ++ "\n") else none

end RegistrationClient

section DriverLoop

/-- Process-level configuration consulted by the loop's network calls:
truthiness of `CONTROL_PLANE_URL and INSTANCE_ID`. -/
structure LoopCfg where
  config_ok : Bool
deriving Repr, DecidableEq

/-- Mutable state carried across driver-loop cycles that the claims are
about: the `registered` flag of `loop` (`agent.py:938`) and the process-wide
credential `WORKER_AUTH_TOKEN`. -/
structure LoopState where
  registered : Bool
  token : String
deriving Repr, DecidableEq

/-- External outcomes of one driver-loop cycle: the readiness check result,
the registration response (consulted only if registration is attempted), and
the heartbeat POST outcome (`none` is a raised transport exception, `some
st` a response with status `st`; consulted only if the POST happens). -/
structure CycleEnv where
  ready : Bool
  regResp : RegResp
  hbResp : Option Nat
deriving Repr, DecidableEq

/-- Observable trace of one driver-loop cycle: whether registration was
attempted, the status string, how many heartbeat POSTs were issued, the
heartbeat result, and whether a heartbeat failure was logged. -/
structure CycleTrace where
  regAttempted : Bool
  status : String
  hbPosts : Nat
  hbOk : Bool
  hbFailureLogged : Bool
deriving Repr, DecidableEq

/-- Embedding of `send_heartbeat` (`agent.py:844-913`): returns the number
of heartbeat POSTs actually issued and the boolean result. With missing
configuration the function returns early, issuing no POST. -/
def send_heartbeat (config_ok : Bool) (hbResp : Option Nat) : Nat × Bool :=
  if ¬config_ok then (0, false)
  else
    match hbResp with
    | none => (1, false)
    | some st => (1, decide (st / 100 = 2))

/-- Embedding of one cycle of `loop` (`agent.py:938-969`): readiness check,
registration attempt while unregistered, then the heartbeat guarded by
`WORKER_AUTH_TOKEN or registered` (both read after the registration
attempt). The skip branch logs no heartbeat failure. -/
def loop_step (cfg : LoopCfg) (s : LoopState) (env : CycleEnv) :
    LoopState × CycleTrace :=
  let status := if env.ready then "ready" else "starting"
  let reg :=
    if s.registered then (true, s.token, false)
    else
      let o := register_worker_once cfg.config_ok s.token env.regResp
      (o.ok, o.token, true)
  let registered1 := reg.1
  let token1 := reg.2.1
  let regAttempted := reg.2.2
  let hb :=
    if token1 ≠ "" ∨ registered1 = true then
      send_heartbeat cfg.config_ok env.hbResp
    else (0, false)
  (⟨registered1, token1⟩,
   ⟨regAttempted, status, hb.1, hb.2, hb.1 != 0 && !hb.2⟩)

/-- Iterated driver loop: fold `loop_step` over a list of per-cycle
environments. -/
def run_loop (cfg : LoopCfg) (s : LoopState) (envs : List CycleEnv) :
    LoopState :=
  envs.foldl (fun s e => (loop_step cfg s e).1) s

end DriverLoop

section SystemMetrics

/-- Process-wide Rate Calculator state (`_PREV_CPU`, `_PREV_NET` of
`agent.py:57-58`): previous `(total, idle)` CPU tick sample and previous
`(rx_bytes, tx_bytes, timestamp)` network sample. -/
structure SysState where
  prevCpu : Option (Int × Int)
  prevNet : Option (Int × Int × ℚ)
deriving Repr, DecidableEq

/-- Output dictionary of `_collect_system_metrics` (`agent.py:443-493`):
every key is optional, absent keys are `none`. -/
structure SysMetrics where
  load1 : Option ℚ := none
  load5 : Option ℚ := none
  load15 : Option ℚ := none
  mem_total_bytes : Option Int := none
  mem_available_bytes : Option Int := none
  disk_total_bytes : Option Int := none
  disk_used_bytes : Option Int := none
  disk_free_bytes : Option Int := none
  cpu_usage_pct : Option ℚ := none
  net_rx_bps : Option ℚ := none
  net_tx_bps : Option ℚ := none
  net_rx_bytes_total : Option Int := none
  net_tx_bytes_total : Option Int := none
  mem_used_bytes : Option Int := none
  mem_used_pct : Option ℚ := none
  disk_used_pct : Option ℚ := none
deriving Repr, DecidableEq

/-- Merge of the `_read_loadavg`, `_read_meminfo` and `_disk_usage` partial
dictionaries (`agent.py:451-454`); each reader contributes either all of
its keys or none (for meminfo, the two keys independently). -/
def sys_base (load : Option (ℚ × ℚ × ℚ))
    (meminfo : Option Int × Option Int)
    (disk : Option (Int × Int × Int)) : SysMetrics :=
  { load1 := load.map (fun l => l.1),
    load5 := load.map (fun l => l.2.1),
    load15 := load.map (fun l => l.2.2),
    mem_total_bytes := meminfo.1,
    mem_available_bytes := meminfo.2,
    disk_total_bytes := disk.map (fun d => d.1),
    disk_used_bytes := disk.map (fun d => d.2.1),
    disk_free_bytes := disk.map (fun d => d.2.2) }

/-- CPU-usage stage of `_collect_system_metrics` (`agent.py:457-466`):
the percentage is emitted only when both a current and a previous sample
exist and the total-tick delta is positive; it is the clamped value of
`(1 - dt_idle/dt_total) * 100`. -/
def sys_cpu_rate (prev : Option (Int × Int)) (cpu : Option (Int × Int))
    (m : SysMetrics) : SysMetrics :=
  match cpu, prev with
  | some c, some p =>
    let dtT := c.1 - p.1
    let dtI := c.2 - p.2
    if 0 < dtT then
      { m with cpu_usage_pct := some (max 0 (min 100 ((1 - (dtI : ℚ) / (dtT : ℚ)) * 100))) }
    else m
  | _, _ => m

/-- Network-rate stage of `_collect_system_metrics` (`agent.py:469-479`):
with a previous sample the elapsed time is clamped below by `0.001` and the
rates are always emitted; totals are always emitted; returns the updated
`_PREV_NET` slot. -/
def sys_net_rate (prev : Option (Int × Int × ℚ)) (now : ℚ)
    (net : Option (Int × Int)) (m : SysMetrics) :
    SysMetrics × Option (Int × Int × ℚ) :=
  match net with
  | some n =>
    let m2 :=
      match prev with
      | some p =>
        let dt := max (1 / 1000) (now - p.2.2)
        { m with
          net_rx_bps := some (max 0 (((n.1 - p.1 : Int) : ℚ) / dt)),
          net_tx_bps := some (max 0 (((n.2 - p.2.1 : Int) : ℚ) / dt)) }
      | none => m
    ({ m2 with
       net_rx_bytes_total := some n.1,
       net_tx_bytes_total := some n.2 }, some (n.1, n.2, now))
  | none => (m, prev)

/-- Derived-percentage stage of `_collect_system_metrics`
(`agent.py:482-491`): used-memory bytes/percent and used-disk percent,
each only when both inputs are present and the denominator is positive. -/
def sys_derived (m : SysMetrics) : SysMetrics :=
  let m4 :=
    match m.mem_total_bytes, m.mem_available_bytes with
    | some mt, some ma =>
      if 0 < mt then
        { m with
          mem_used_bytes := some (max 0 (mt - ma)),
          mem_used_pct := some (max 0 (min 100 (((mt - ma : Int) : ℚ) / (mt : ℚ) * 100))) }
      else m
    | _, _ => m
  match m4.disk_total_bytes, m4.disk_used_bytes with
  | some dtb, some dub =>
    if 0 < dtb then
      { m4 with disk_used_pct := some (max 0 (min 100 ((dub : ℚ) / (dtb : ℚ) * 100))) }
    else m4
  | _, _ => m4

/-- Embedding of `_collect_system_metrics` (`agent.py:443-493`): stages
composed in source order; also returns the updated process-wide state
(`_PREV_CPU` is overwritten whenever a current CPU sample exists,
`_PREV_NET` whenever a current network sample exists). -/
def collect_system_metrics (st : SysState) (now : ℚ)
    (load : Option (ℚ × ℚ × ℚ))
    (meminfo : Option Int × Option Int)
    (disk : Option (Int × Int × Int))
    (cpu : Option (Int × Int))
    (net : Option (Int × Int)) : SysMetrics × SysState :=
  let m1 := sys_cpu_rate st.prevCpu cpu (sys_base load meminfo disk)
  let prevCpu1 := if cpu.isSome then cpu else st.prevCpu
  let mn := sys_net_rate st.prevNet now net m1
  (sys_derived mn.1, ⟨prevCpu1, mn.2⟩)

end SystemMetrics

section VllmSignalsSource

/-- Output of `_collect_vllm_signals` (`agent.py:512-554`): each field is
present exactly when produced. -/
structure VllmSignals where
  requests_waiting : Option ℚ := none
  requests_running : Option ℚ := none
  queue_depth : Option Int := none
deriving Repr, DecidableEq

/-- Character class of the value group in `_parse_prometheus_metric`
(`agent.py:503`): `[0-9eE.+-]`. -/
def is_metric_token_char (c : Char) : Bool :=
  c.isDigit || c = 'e' || c = 'E' || c = '.' || c = '+' || c = '-'

/-- Per-line matcher for the anchored pattern of `_parse_prometheus_metric`
(`agent.py:503`): the metric name at line start, an optional
brace-delimited label block with no closing brace inside, one-or-more
whitespace, the value token, optional trailing whitespace. Returns the
value token. -/
def match_metric_line (name : String) (line : String) : Option String :=
  let ncs := name.toList
  if ncs.isPrefixOf line.toList then
    let rest := line.toList.drop ncs.length
    let rest1 : Option (List Char) :=
      match rest with
      | '\x7b' :: r =>
        match r.dropWhile (fun c => c ≠ '\x7d') with
        | '\x7d' :: r2 => some r2
        | _ => none
      | _ => some rest
    match rest1 with
    | none => none
    | some cs =>
      let ws := cs.takeWhile Char.isWhitespace
      let cs2 := cs.dropWhile Char.isWhitespace
      if ws = [] then none
      else
        let tok := cs2.takeWhile is_metric_token_char
        let cs3 := cs2.dropWhile is_metric_token_char
        if tok = [] then none
        else if cs3.all Char.isWhitespace then some (String.mk tok)
        else none
  else none

/-- Embedding of `_parse_prometheus_metric` (`agent.py:496-509`): for each
name in priority order, find the first matching line of the exposition
text; if its value token parses as a float return it, otherwise fall
through to the next name. -/
def parse_prometheus_metric (txt : String) (names : List String) :
    Option ℚ :=
  names.findSome? (fun name =>
    ((py_split_char txt '\n').findSome? (match_metric_line name)).bind
      py_float)

/-- The waiting-requests metric name variants (`agent.py:526-534`). -/
def vllm_waiting_names : List String :=
  ["vllm_num_requests_waiting", "vllm:num_requests_waiting",
   "vllm_requests_waiting", "vllm:requests_waiting"]

/-- The running-requests metric name variants (`agent.py:535-543`). -/
def vllm_running_names : List String :=
  ["vllm_num_requests_running", "vllm:num_requests_running",
   "vllm_requests_running", "vllm:requests_running"]

/-- Embedding of `_collect_vllm_signals` (`agent.py:512-554`): `resp` is the
outcome of `GET <metrics-url>` (`none` for a raised exception). On the
rational model `int(max(0.0, waiting))` cannot raise (no IEEE infinity), so
the guarded `queue_depth` assignment always lands when `waiting` parsed;
`max 0` makes the truncation a floor. -/
def collect_vllm_signals (resp : Option (Nat × String)) : VllmSignals :=
  match resp with
  | none => {}
  | some (st, txt) =>
    if st ≠ 200 then {}
    else
      let waiting := parse_prometheus_metric txt vllm_waiting_names
      let running := parse_prometheus_metric txt vllm_running_names
      { requests_waiting := waiting,
        requests_running := running,
        queue_depth := waiting.map (fun w => Int.floor (max 0 w)) }

end VllmSignalsSource

section GpuSource

/-- One per-GPU record as produced by `_try_nvidia_smi` or
`_fake_gpu_metrics` (`agent.py:251-261`, `agent.py:308-318`). -/
structure GpuEntry where
  index : Int
  gpu_utilization : ℚ
  gpu_mem_used_mb : ℚ
  gpu_mem_total_mb : ℚ
  gpu_temp_c : Option ℚ
  gpu_power_w : Option ℚ
  gpu_power_limit_w : Option ℚ
deriving Repr, DecidableEq

/-- The non-empty GPU metrics dictionary (`agent.py:271-279`,
`agent.py:327-335`): both producers either return `{}` (modelled `none` at
the use sites) or set all aggregate keys and the `gpus` list together. -/
structure GpuAgg where
  gpu_utilization : ℚ
  gpu_mem_used_mb : ℚ
  gpu_mem_total_mb : ℚ
  gpu_temp_c : Option ℚ
  gpu_power_w : Option ℚ
  gpu_power_limit_w : Option ℚ
  gpus : List GpuEntry
deriving Repr, DecidableEq

/-- Embedding of `_fake_gpu_metrics` (`agent.py:284-335`): `none` for the
empty dictionary. Enabled only when `WORKER_SIMULATE_GPU_COUNT > 0`; the
synthetic load is a deterministic function of the service queue depth. -/
def fake_gpu_metrics (sim_count vram_mb : Int) (vllm : VllmSignals) :
    Option GpuAgg :=
  if sim_count ≤ 0 then none
  else
    let qd : ℚ := ((vllm.queue_depth.getD 0 : Int) : ℚ)
    let base_util : ℚ := max 0 (min 95 (5 + qd * 8))
    let gpus := (List.range sim_count.toNat).map (fun (idx : Nat) =>
      let util : ℚ := max 0 (min 100 (base_util + (idx : ℚ) * 3))
      let mem_total : ℚ := (vram_mb : ℚ)
      let mem_used : ℚ := max 0 (min mem_total (mem_total * (util / 100)))
      let temp_c : ℚ := 35 + util * (1 / 2)
      let power_limit_w : ℚ := 300
      let power_w : ℚ := power_limit_w * (util / 100)
      ({ index := (idx : Int), gpu_utilization := util,
         gpu_mem_used_mb := mem_used, gpu_mem_total_mb := mem_total,
         gpu_temp_c := some temp_c, gpu_power_w := some power_w,
         gpu_power_limit_w := some power_limit_w } : GpuEntry))
    if gpus.isEmpty then none
    else
      let temps := gpus.filterMap (fun x => x.gpu_temp_c)
      let powers := gpus.filterMap (fun x => x.gpu_power_w)
      let plims := gpus.filterMap (fun x => x.gpu_power_limit_w)
      some
        { gpu_utilization :=
            (gpus.map (fun x => x.gpu_utilization)).sum / (gpus.length : ℚ),
          gpu_mem_used_mb := (gpus.map (fun x => x.gpu_mem_used_mb)).sum,
          gpu_mem_total_mb := (gpus.map (fun x => x.gpu_mem_total_mb)).sum,
          gpu_temp_c :=
            if temps.isEmpty then none
            else some (temps.sum / (temps.length : ℚ)),
          gpu_power_w :=
            if powers.isEmpty then none
            else some (powers.sum / (powers.length : ℚ)),
          gpu_power_limit_w :=
            if plims.isEmpty then none
            else some (plims.sum / (plims.length : ℚ)),
          gpus := gpus }

/-- GPU sample selection in `register_worker_once` (`agent.py:781-783`):
the real query first, the synthetic metrics only when it yielded nothing. -/
def gpu_for_register (real : Option GpuAgg) (sim_count vram_mb : Int)
    (vllm : VllmSignals) : Option GpuAgg :=
  match real with
  | some g => some g
  | none => fake_gpu_metrics sim_count vram_mb vllm

/-- GPU sample selection in `send_heartbeat` (`agent.py:853-855`):
identical to the registration site. -/
def gpu_for_heartbeat (real : Option GpuAgg) (sim_count vram_mb : Int)
    (vllm : VllmSignals) : Option GpuAgg :=
  match real with
  | some g => some g
  | none => fake_gpu_metrics sim_count vram_mb vllm

/-- GPU sample selection in the `/metrics` handler (`agent.py:579`): only
`_try_nvidia_smi` is consulted; there is no synthetic fallback here. -/
def gpu_for_scrape (real : Option GpuAgg) : Option GpuAgg :=
  real

end GpuSource

section ExpositionServer

/-- One line of the `/metrics` text exposition (`agent.py:582-699`),
represented structurally: a `# HELP` line, a `# TYPE` line, an unlabelled
gauge sample, or a gauge sample labelled with a GPU index. The numeric
rendering of values is abstracted; the metric-family name of every line is
explicit. -/
inductive MetricLine where
  | help (name text : String)
  | mtype (name : String)
  | gauge (name : String) (value : ℚ)
  | gaugeLabeled (name label : String) (labelValue : Int) (value : ℚ)
deriving Repr, DecidableEq

/-- The metric-family name a line belongs to. -/
def MetricLine.name : MetricLine → String
  | .help n _ => n
  | .mtype n => n
  | .gauge n _ => n
  | .gaugeLabeled n _ _ _ => n

/-- Lines contributed under a presence guard (`if key in dict:`). -/
def opt_lines {α : Type} (o : Option α) (f : α → List MetricLine) :
    List MetricLine :=
  match o with
  | none => []
  | some v => f v

/-- Embedding of the `/metrics` branch of `_Handler.do_GET`
(`agent.py:576-701`): the lines list in source order. The three aggregate
GPU guards test their individual keys in the source; the producers set all
of them together with `gpus`, which this model reflects by guarding each
block on the same optional dictionary. -/
def metrics_lines (ready : Bool) (gpu : Option GpuAgg) (sysm : SysMetrics)
    (vllm : VllmSignals) : List MetricLine :=
  [MetricLine.help "inventiv_worker_up" "Worker process is up (always 1).",
   MetricLine.mtype "inventiv_worker_up",
   MetricLine.gauge "inventiv_worker_up" 1,
   MetricLine.help "inventiv_worker_vllm_ready" "vLLM is ready (1/0).",
   MetricLine.mtype "inventiv_worker_vllm_ready",
   MetricLine.gauge "inventiv_worker_vllm_ready" (if ready then 1 else 0)]
  ++ opt_lines vllm.queue_depth (fun q =>
    [.help "inventiv_worker_queue_depth"
       "Best-effort queue depth (requests waiting).",
     .mtype "inventiv_worker_queue_depth",
     .gauge "inventiv_worker_queue_depth" (q : ℚ)])
  ++ opt_lines vllm.requests_running (fun v =>
    [.help "inventiv_worker_requests_running"
       "Best-effort running requests.",
     .mtype "inventiv_worker_requests_running",
     .gauge "inventiv_worker_requests_running" v])
  ++ opt_lines vllm.requests_waiting (fun v =>
    [.help "inventiv_worker_requests_waiting"
       "Best-effort waiting requests.",
     .mtype "inventiv_worker_requests_waiting",
     .gauge "inventiv_worker_requests_waiting" v])
  ++ opt_lines gpu (fun g =>
    [.help "inventiv_worker_gpu_utilization" "GPU utilization percent.",
     .mtype "inventiv_worker_gpu_utilization",
     .gauge "inventiv_worker_gpu_utilization" g.gpu_utilization])
  ++ opt_lines gpu (fun g =>
    [.help "inventiv_worker_gpu_mem_used_mb" "GPU memory used MB.",
     .mtype "inventiv_worker_gpu_mem_used_mb",
     .gauge "inventiv_worker_gpu_mem_used_mb" g.gpu_mem_used_mb])
  ++ opt_lines gpu (fun g =>
    [.help "inventiv_worker_gpu_mem_total_mb" "GPU memory total MB.",
     .mtype "inventiv_worker_gpu_mem_total_mb",
     .gauge "inventiv_worker_gpu_mem_total_mb" g.gpu_mem_total_mb])
  ++ opt_lines gpu (fun g =>
    [MetricLine.help "inventiv_worker_gpu_utilization_by_gpu"
       "GPU utilization percent by GPU index.",
     MetricLine.mtype "inventiv_worker_gpu_utilization_by_gpu"]
    ++ g.gpus.map (fun e =>
      MetricLine.gaugeLabeled "inventiv_worker_gpu_utilization_by_gpu"
        "gpu_index" e.index e.gpu_utilization)
    ++ [MetricLine.help "inventiv_worker_gpu_mem_used_mb_by_gpu"
          "GPU memory used MB by GPU index.",
        MetricLine.mtype "inventiv_worker_gpu_mem_used_mb_by_gpu"]
    ++ g.gpus.map (fun e =>
      MetricLine.gaugeLabeled "inventiv_worker_gpu_mem_used_mb_by_gpu"
        "gpu_index" e.index e.gpu_mem_used_mb))
  ++ opt_lines sysm.cpu_usage_pct (fun v =>
    [.help "inventiv_worker_cpu_usage_pct"
       "CPU usage percent (host/container).",
     .mtype "inventiv_worker_cpu_usage_pct",
     .gauge "inventiv_worker_cpu_usage_pct" v])
  ++ opt_lines sysm.load1 (fun v =>
    [.help "inventiv_worker_load1" "Load average (1m).",
     .mtype "inventiv_worker_load1",
     .gauge "inventiv_worker_load1" v])
  ++ opt_lines sysm.mem_used_bytes (fun v =>
    [.help "inventiv_worker_mem_used_bytes" "Memory used bytes.",
     .mtype "inventiv_worker_mem_used_bytes",
     .gauge "inventiv_worker_mem_used_bytes" (v : ℚ)])
  ++ opt_lines sysm.mem_total_bytes (fun v =>
    [.help "inventiv_worker_mem_total_bytes" "Memory total bytes.",
     .mtype "inventiv_worker_mem_total_bytes",
     .gauge "inventiv_worker_mem_total_bytes" (v : ℚ)])
  ++ opt_lines sysm.disk_used_bytes (fun v =>
    [.help "inventiv_worker_disk_used_bytes"
       "Disk used bytes for WORKER_DISK_PATH.",
     .mtype "inventiv_worker_disk_used_bytes",
     .gauge "inventiv_worker_disk_used_bytes" (v : ℚ)])
  ++ opt_lines sysm.disk_total_bytes (fun v =>
    [.help "inventiv_worker_disk_total_bytes"
       "Disk total bytes for WORKER_DISK_PATH.",
     .mtype "inventiv_worker_disk_total_bytes",
     .gauge "inventiv_worker_disk_total_bytes" (v : ℚ)])
  ++ opt_lines sysm.net_rx_bps (fun v =>
    [.help "inventiv_worker_net_rx_bps"
       "Network receive bytes/sec (aggregated).",
     .mtype "inventiv_worker_net_rx_bps",
     .gauge "inventiv_worker_net_rx_bps" v])
  ++ opt_lines sysm.net_tx_bps (fun v =>
    [.help "inventiv_worker_net_tx_bps"
       "Network transmit bytes/sec (aggregated).",
     .mtype "inventiv_worker_net_tx_bps",
     .gauge "inventiv_worker_net_tx_bps" v])

/-- Whether any line of an exposition belongs to the named family. -/
def has_name (n : String) (lines : List MetricLine) : Bool :=
  lines.any (fun l => l.name == n)

end ExpositionServer

section SampleSourceReaders

/-- Embedding of `_try_nvidia_smi` (`agent.py:223-281`). `sub` is the
outcome of the `nvidia-smi` subprocess call (`error` for a missing binary,
non-zero exit or timeout). The CSV parse, including the fallible `int`/
`float` conversions, runs inside the catch-all; a parse failure of the
optional fields is only avoided for `""`/`"N/A"`. Returns `none` for the
empty dictionary. -/
def try_nvidia_smi (sub : Except Unit String) : Except Unit (Option GpuAgg) :=
  py_try
    (do
      let out ← sub
      let gpus ← (py_split_char (py_strip out) '\n').foldlM
        (fun (acc : List GpuEntry) line => do
          let parts := (py_split_char line ',').map py_strip
          if parts.length ≠ 7 then pure acc
          else do
            let idx ← py_int (parts.getD 0 "")
            let util ← py_floatE (parts.getD 1 "")
            let memUsed ← py_floatE (parts.getD 2 "")
            let memTotal ← py_floatE (parts.getD 3 "")
            let temp ←
              if parts.getD 4 "" = "" ∨ parts.getD 4 "" = "N/A" then
                pure (none : Option ℚ)
              else some <$> py_floatE (parts.getD 4 "")
            let power ←
              if parts.getD 5 "" = "" ∨ parts.getD 5 "" = "N/A" then
                pure (none : Option ℚ)
              else some <$> py_floatE (parts.getD 5 "")
            let plim ←
              if parts.getD 6 "" = "" ∨ parts.getD 6 "" = "N/A" then
                pure (none : Option ℚ)
              else some <$> py_floatE (parts.getD 6 "")
            pure (acc ++ [⟨idx, util, memUsed, memTotal, temp, power, plim⟩]))
        []
      if gpus.isEmpty then pure none
      else
        let temps := gpus.filterMap (fun x => x.gpu_temp_c)
        let powers := gpus.filterMap (fun x => x.gpu_power_w)
        let plims := gpus.filterMap (fun x => x.gpu_power_limit_w)
        pure (some
          { gpu_utilization :=
              (gpus.map (fun x => x.gpu_utilization)).sum / (gpus.length : ℚ),
            gpu_mem_used_mb := (gpus.map (fun x => x.gpu_mem_used_mb)).sum,
            gpu_mem_total_mb := (gpus.map (fun x => x.gpu_mem_total_mb)).sum,
            gpu_temp_c :=
              if temps.isEmpty then none
              else some (temps.sum / (temps.length : ℚ)),
            gpu_power_w :=
              if powers.isEmpty then none
              else some (powers.sum / (powers.length : ℚ)),
            gpu_power_limit_w :=
              if plims.isEmpty then none
              else some (plims.sum / (plims.length : ℚ)),
            gpus := gpus }))
    none

/-- Embedding of `_read_proc_stat_cpu` (`agent.py:337-361`). `file` is the
outcome of opening and reading `/proc/stat`. The digit-filter admits
strings such as `"--5"` whose `int()` conversion raises inside the try
block; a missing `cpu ` line falls through to `return None`. -/
def read_proc_stat_cpu (file : Except Unit String) :
    Except Unit (Option (Int × Int)) :=
  py_try
    (do
      let content ← file
      match (py_split_char content '\n').find?
          (fun l => "cpu ".toList.isPrefixOf l.toList) with
      | none => pure none
      | some line =>
        let parts := py_split_ws (py_strip line)
        let cand := (parts.drop 1).filter (fun x =>
          is_digit_str x ||
          is_digit_str (String.mk (x.toList.dropWhile (fun c => c = '-'))))
        let vals ← cand.mapM py_int
        if vals.length < 4 then pure none
        else
          let user := vals.getD 0 0
          let nice := vals.getD 1 0
          let system := vals.getD 2 0
          let idle := vals.getD 3 0
          let iowait := vals.getD 4 0
          let irq := vals.getD 5 0
          let softirq := vals.getD 6 0
          let steal := vals.getD 7 0
          let idle_all := idle + iowait
          let non_idle := user + nice + system + irq + softirq + steal
          pure (some (idle_all + non_idle, idle_all)))
    none

/-- Matcher for the `_read_meminfo` value pattern (`agent.py:380`):
digits, one-or-more whitespace, `kB`, end of string. -/
def match_kb (v : String) : Option Nat :=
  let cs := v.toList
  let d := cs.takeWhile Char.isDigit
  let r1 := cs.dropWhile Char.isDigit
  let ws := r1.takeWhile Char.isWhitespace
  let r2 := r1.dropWhile Char.isWhitespace
  if d = [] ∨ ws = [] then none
  else if r2 = ['k', 'B'] then some (digits_val d) else none

/-- Embedding of `_read_meminfo` (`agent.py:364-390`): the
`(mem_total_bytes, mem_available_bytes)` pair, each key present only when
its line parsed. -/
def read_meminfo (file : Except Unit String) :
    Except Unit (Option Int × Option Int) :=
  py_try
    (do
      let content ← file
      pure ((py_split_char content '\n').foldl
        (fun (acc : Option Int × Option Int) line =>
          if (line.toList.contains ':') = false then acc
          else
            let kv := py_split1 line ":"
            let k := py_strip kv.1
            let v := py_strip kv.2
            if v = "" then acc
            else
              match match_kb v with
              | none => acc
              | some n =>
                let bytes : Int := (n : Int) * 1024
                if k = "MemTotal" then (some bytes, acc.2)
                else if k = "MemAvailable" then (acc.1, some bytes)
                else acc)
        (none, none)))
    (none, none)

/-- Embedding of `_read_loadavg` (`agent.py:393-401`): the three load
averages, or `none` (the empty dictionary) when fewer than three fields. -/
def read_loadavg (file : Except Unit String) :
    Except Unit (Option (ℚ × ℚ × ℚ)) :=
  py_try
    (do
      let content ← file
      let parts := py_split_ws (py_strip content)
      if parts.length < 3 then pure none
      else do
        let l1 ← py_floatE (parts.getD 0 "")
        let l5 ← py_floatE (parts.getD 1 "")
        let l15 ← py_floatE (parts.getD 2 "")
        pure (some (l1, l5, l15)))
    none

/-- Embedding of `_disk_usage` (`agent.py:404-414`): `du` is the outcome of
`shutil.disk_usage(path)`; result carries the path and the
total/used/free byte counts, or `none` (empty dictionary) on failure. -/
def disk_usage (path : String) (du : Except Unit (Int × Int × Int)) :
    Except Unit (Option (String × Int × Int × Int)) :=
  py_try
    (do
      let d ← du
      pure (some (path, d.1, d.2.1, d.2.2)))
    none

/-- Embedding of `_read_netdev_totals` (`agent.py:417-440`): sums rx/tx
byte counters over non-loopback interface lines (skipping the two header
lines); a malformed counter raises inside the try block. -/
def read_netdev_totals (file : Except Unit String) :
    Except Unit (Option (Int × Int)) :=
  py_try
    (do
      let content ← file
      let totals ← ((py_split_char content '\n').drop 2).foldlM
        (fun (acc : Int × Int) line => do
          if (line.toList.contains ':') = false then pure acc
          else
            let kv := py_split1 line ":"
            let iface := py_strip kv.1
            if iface = "" ∨ iface = "lo" then pure acc
            else
              let parts := py_split_ws kv.2
              if parts.length < 16 then pure acc
              else do
                let rx ← py_int (parts.getD 0 "")
                let tx ← py_int (parts.getD 8 "")
                pure (acc.1 + rx, acc.2 + tx))
        (0, 0)
      pure (some totals))
    none

end SampleSourceReaders

/-- Boolean list membership (`List.contains`) agrees with `∈` on strings. -/
theorem contains_eq_true_iff (l : List String) (a : String) :
    l.contains a = true ↔ a ∈ l := by
  simp [List.contains_eq_any_beq, List.any_eq_true, beq_iff_eq]

/-- C1: an outcome of the readiness check is `ready` exactly when the
model-listing GET returned status 200 with a decodable body and either no
MODEL_ID is configured or the configured MODEL_ID appears among the `id`
fields of the returned data list; every transport failure yields not-ready. -/
theorem c1_check_vllm_ready_iff (model_id : String) (resp : Option ModelsResp) :
    (check_vllm_ready model_id resp = true ↔
      ∃ items, resp = some (200, some items) ∧
        (model_id = "" ∨ model_id ∈ collect_ids items)) ∧
    check_vllm_ready model_id none = false := by
  constructor
  · constructor
    · intro h
      match resp with
      | none => simp [check_vllm_ready] at h
      | some (st, body) =>
        by_cases hst : st = 200
        · subst hst
          match body with
          | none => simp [check_vllm_ready] at h
          | some items =>
            refine ⟨items, rfl, ?_⟩
            by_cases hm : model_id = ""
            · exact Or.inl hm
            · right
              simp [check_vllm_ready, hm] at h
              simpa [contains_eq_true_iff] using h
        · simp [check_vllm_ready, hst] at h
    · rintro ⟨items, rfl, hcase⟩
      rcases hcase with hm | hmem
      · simp [check_vllm_ready, hm]
      · by_cases hm : model_id = ""
        · simp [check_vllm_ready, hm]
        · simp [check_vllm_ready, hm, contains_eq_true_iff]
          exact hmem
  · rfl

/-- C2: after a 2xx registration response the process-wide credential is
unchanged when it was non-empty, and equals the stripped returned
`bootstrap_token` when it was empty and a token was returned; an adopted
token is the value handed to the credential-file persist call and is the
Bearer token of subsequent heartbeat headers. A non-empty credential is
never replaced by any later registration response. -/
theorem c2_bootstrap_credential (token : String) (st : Nat)
    (btok : Option String) (h2xx : st / 100 = 2) :
    ((token ≠ "" →
        (register_worker_once true token (.response st btok)).token = token ∧
        (register_worker_once true token (.response st btok)).persist_call
          = none) ∧
     (token = "" → ∀ t, btok = some t →
        (register_worker_once true token (.response st btok)).token
          = py_strip t ∧
        (t ≠ "" →
          (register_worker_once true token (.response st btok)).persist_call
            = some (register_worker_once true token
                (.response st btok)).token))) ∧
    (∀ tk : String, tk ≠ "" → auth_headers tk
        = [("Authorization", "Bearer " ++ tk)]) ∧
    (∀ (cfg : Bool) (resp : RegResp), token ≠ "" →
        (register_worker_once cfg token resp).token = token) := by
  refine ⟨⟨?_, ?_⟩, ?_, ?_⟩
  · intro hne
    simp [register_worker_once, h2xx]
    cases btok with
    | none => simp
    | some t => simp [hne]
  · rintro rfl t rfl
    by_cases ht : t = ""
    · subst ht
      simp [register_worker_once, h2xx]
      decide
    · simp [register_worker_once, h2xx, ht]
  · intro tk hk
    simp [auth_headers, hk]
  · intro cfg resp hne
    cases cfg with
    | false => simp [register_worker_once]
    | true =>
      cases resp with
      | failure => simp [register_worker_once]
      | response st' btok' =>
        by_cases hst : st' / 100 = 2
        · cases btok' with
          | none => simp [register_worker_once, hst]
          | some t => simp [register_worker_once, hst, hne]
        · simp [register_worker_once, hst]

/-- C2 witness: with no prior credential, a 200 response carrying
`bootstrap_token = "abc"` leaves the credential `"abc"`, persists it, and
subsequent heartbeat headers carry `Bearer abc`. -/
theorem c2_bootstrap_credential_witness :
    (register_worker_once true "" (.response 200 (some "abc"))).token
      = "abc" ∧
    (register_worker_once true "" (.response 200 (some "abc"))).persist_call
      = some "abc" ∧
    auth_headers "abc" = [("Authorization", "Bearer abc")] := by
  have h := c2_bootstrap_credential "" 200 (some "abc") (by decide)
  refine ⟨?_, ?_, ?_⟩
  · rw [(h.1.2 rfl "abc" rfl).1]
    rfl
  · rw [(h.1.2 rfl "abc" rfl).2 (by decide), (h.1.2 rfl "abc" rfl).1]
    rfl
  · simpa using h.2.1 "abc" (by decide)

/-- C3: the driver loop's registration flag is monotonic — once true it
stays true across any single cycle and any sequence of further cycles, and
registration is attempted in a cycle exactly when the loop enters it
unregistered. -/
theorem c3_registered_monotonic (cfg : LoopCfg) (s : LoopState)
    (env : CycleEnv) :
    (s.registered = true → (loop_step cfg s env).1.registered = true) ∧
    ((loop_step cfg s env).2.regAttempted = !s.registered) ∧
    (∀ envs : List CycleEnv, s.registered = true →
      (run_loop cfg s envs).registered = true) := by
  refine ⟨?_, ?_, ?_⟩
  · intro h
    simp [loop_step, h]
  · cases h : s.registered <;> simp [loop_step, h]
  · intro envs
    induction envs generalizing s with
    | nil => intro h; simpa [run_loop] using h
    | cons e es ih =>
      intro h
      have hstep : (loop_step cfg s e).1.registered = true := by
        simp [loop_step, h]
      simpa [run_loop] using ih (loop_step cfg s e).1 hstep

/-- C3 witness: a registered state stays registered through a concrete
cycle in which both the registration and heartbeat endpoints fail. -/
theorem c3_registered_monotonic_witness :
    (loop_step ⟨true⟩ ⟨true, "tok"⟩
        ⟨false, .failure, none⟩).1.registered = true ∧
    (loop_step ⟨true⟩ ⟨true, "tok"⟩
        ⟨false, .failure, none⟩).2.regAttempted = false ∧
    (run_loop ⟨true⟩ ⟨true, "tok"⟩
        [⟨false, .failure, none⟩, ⟨false, .failure, some 500⟩]).registered
      = true := by
  have h := c3_registered_monotonic ⟨true⟩ ⟨true, "tok"⟩
      ⟨false, .failure, none⟩
  exact ⟨h.1 rfl, by simpa using h.2.1,
    h.2.2 [⟨false, .failure, none⟩, ⟨false, .failure, some 500⟩] rfl⟩

/-- C4 (amended): provided `CONTROL_PLANE_URL` and `INSTANCE_ID` are both
configured, a driver-loop cycle issues no heartbeat POST exactly when the
credential is empty and registration has not succeeded (both judged after
the cycle's registration attempt); otherwise it issues exactly one POST,
and a skipped heartbeat logs no failure. -/
theorem c4_heartbeat_skip_iff (cfg : LoopCfg) (s : LoopState) (env : CycleEnv)
    (hcfg : cfg.config_ok = true) :
    ((loop_step cfg s env).2.hbPosts = 0 ↔
      ((loop_step cfg s env).1.token = "" ∧
       (loop_step cfg s env).1.registered = false)) ∧
    (loop_step cfg s env).2.hbPosts ≤ 1 ∧
    ((loop_step cfg s env).2.hbPosts = 0 →
      (loop_step cfg s env).2.hbFailureLogged = false) := by
  by_cases hreg : s.registered = true
  · cases henv : env.hbResp <;>
      simp [loop_step, send_heartbeat, hreg, hcfg, henv]
  · have hreg' : s.registered = false := by
      cases h : s.registered
      · rfl
      · exact absurd h hreg
    rcases hO : register_worker_once cfg.config_ok s.token env.regResp
      with ⟨ok, tok, pc⟩
    rw [hcfg] at hO
    by_cases htok : tok = "" <;> cases ok <;> cases henv : env.hbResp <;>
      simp [loop_step, send_heartbeat, hreg', hO, htok, hcfg, henv]

/-- C4 witness: with configuration present, an unregistered cycle holding no
credential whose registration attempt fails issues no heartbeat POST. -/
theorem c4_heartbeat_skip_iff_witness :
    (loop_step ⟨true⟩ ⟨false, ""⟩ ⟨true, .failure, some 200⟩).2.hbPosts = 0 ∧
    (loop_step ⟨true⟩ ⟨false, ""⟩ ⟨true, .failure, some 200⟩).1.token = "" ∧
    (loop_step ⟨true⟩ ⟨false, ""⟩
        ⟨true, .failure, some 200⟩).1.registered = false := by
  have h := c4_heartbeat_skip_iff ⟨true⟩ ⟨false, ""⟩
      ⟨true, .failure, some 200⟩ rfl
  exact ⟨h.1.mpr (by decide), by decide, by decide⟩

/-- C4 counterexample: with `CONTROL_PLANE_URL`/`INSTANCE_ID` unset but a
credential supplied via environment, the cycle issues no heartbeat POST
(`send_heartbeat` returns before POSTing) even though the credential is
non-empty — refuting the claimed "if and only if" as stated. -/
theorem c4_heartbeat_skip_counterexample :
    (loop_step ⟨false⟩ ⟨false, "abc"⟩
        ⟨true, .failure, some 200⟩).2.hbPosts = 0 ∧
    ¬((loop_step ⟨false⟩ ⟨false, "abc"⟩
        ⟨true, .failure, some 200⟩).1.token = "" ∧
      (loop_step ⟨false⟩ ⟨false, "abc"⟩
        ⟨true, .failure, some 200⟩).1.registered = false) := by
  decide

/-- Helper: the derived-percentage stage never touches the CPU or network
rate fields. -/
theorem sys_derived_preserves (m : SysMetrics) :
    (sys_derived m).cpu_usage_pct = m.cpu_usage_pct ∧
    (sys_derived m).net_rx_bps = m.net_rx_bps ∧
    (sys_derived m).net_tx_bps = m.net_tx_bps := by
  simp only [sys_derived]
  repeat' split
  all_goals simp_all

/-- Helper: the network-rate stage never touches the CPU percentage. -/
theorem sys_net_rate_cpu (prev : Option (Int × Int × ℚ)) (now : ℚ)
    (net : Option (Int × Int)) (m : SysMetrics) :
    (sys_net_rate prev now net m).1.cpu_usage_pct = m.cpu_usage_pct := by
  simp only [sys_net_rate]
  repeat' split
  all_goals simp_all

/-- Helper: the CPU-rate stage never touches the network rate fields. -/
theorem sys_cpu_rate_net (prev cpu : Option (Int × Int)) (m : SysMetrics) :
    (sys_cpu_rate prev cpu m).net_rx_bps = m.net_rx_bps ∧
    (sys_cpu_rate prev cpu m).net_tx_bps = m.net_tx_bps := by
  simp only [sys_cpu_rate]
  repeat' split
  all_goals simp_all

/-- C5 (amended): the CPU percentage is omitted whenever no previous CPU
sample exists, no current CPU sample exists, or the total-tick delta is
non-positive; the network rates are omitted whenever no previous (or no
current) network sample exists. (With a previous network sample, a
non-positive wall-time delta is clamped to 0.001 s and the rates are still
emitted — see the counterexample.) -/
theorem c5_rate_omission (st : SysState) (now : ℚ)
    (load : Option (ℚ × ℚ × ℚ)) (meminfo : Option Int × Option Int)
    (disk : Option (Int × Int × Int)) (cpu net : Option (Int × Int)) :
    (st.prevCpu = none →
      (collect_system_metrics st now load meminfo disk cpu net).1.cpu_usage_pct
        = none) ∧
    (cpu = none →
      (collect_system_metrics st now load meminfo disk cpu net).1.cpu_usage_pct
        = none) ∧
    (∀ c p, cpu = some c → st.prevCpu = some p → c.1 - p.1 ≤ 0 →
      (collect_system_metrics st now load meminfo disk cpu net).1.cpu_usage_pct
        = none) ∧
    (st.prevNet = none →
      (collect_system_metrics st now load meminfo disk cpu net).1.net_rx_bps
        = none ∧
      (collect_system_metrics st now load meminfo disk cpu net).1.net_tx_bps
        = none) ∧
    (net = none →
      (collect_system_metrics st now load meminfo disk cpu net).1.net_rx_bps
        = none ∧
      (collect_system_metrics st now load meminfo disk cpu net).1.net_tx_bps
        = none) := by
  refine ⟨?_, ?_, ?_, ?_, ?_⟩
  · intro h
    simp only [collect_system_metrics]
    rw [(sys_derived_preserves _).1, sys_net_rate_cpu, h]
    cases cpu <;> simp [sys_cpu_rate, sys_base]
  · intro h
    simp only [collect_system_metrics]
    rw [(sys_derived_preserves _).1, sys_net_rate_cpu, h]
    cases st.prevCpu <;> simp [sys_cpu_rate, sys_base]
  · rintro c p rfl hp hle
    simp only [collect_system_metrics]
    rw [(sys_derived_preserves _).1, sys_net_rate_cpu, hp]
    simp only [sys_cpu_rate]
    rw [if_neg (not_lt.mpr hle)]
    rfl
  · intro h
    simp only [collect_system_metrics]
    constructor
    · rw [(sys_derived_preserves _).2.1, h]
      cases net <;>
        simp [sys_net_rate, (sys_cpu_rate_net _ _ _).1, sys_base]
    · rw [(sys_derived_preserves _).2.2, h]
      cases net <;>
        simp [sys_net_rate, (sys_cpu_rate_net _ _ _).2, sys_base]
  · intro h
    simp only [collect_system_metrics]
    rw [h]
    constructor
    · rw [(sys_derived_preserves _).2.1]
      simp [sys_net_rate, (sys_cpu_rate_net _ _ _).1, sys_base]
    · rw [(sys_derived_preserves _).2.2]
      simp [sys_net_rate, (sys_cpu_rate_net _ _ _).2, sys_base]

/-- C5 witness: on the very first collection (no previous samples) both the
CPU percentage and the network rates are absent. -/
theorem c5_rate_omission_witness :
    (collect_system_metrics ⟨none, none⟩ 0 none (none, none) none
        (some (100, 50)) (some (1, 2))).1.cpu_usage_pct = none ∧
    (collect_system_metrics ⟨none, none⟩ 0 none (none, none) none
        (some (100, 50)) (some (1, 2))).1.net_rx_bps = none := by
  have h := c5_rate_omission ⟨none, none⟩ 0 none (none, none) none
      (some (100, 50)) (some (1, 2))
  exact ⟨h.1 rfl, (h.2.2.2.1 rfl).1⟩

/-- C5 counterexample: with a previous network sample taken at the same
wall-clock instant (elapsed time 0, non-positive), the network rate is not
omitted — the delta is divided by the clamp value 0.001 and emitted. -/
theorem c5_rate_omission_counterexample :
    (collect_system_metrics ⟨none, some (0, 0, 10)⟩ 10 none (none, none)
        none none (some (100, 200))).1.net_rx_bps = some 100000 ∧
    ¬((collect_system_metrics ⟨none, some (0, 0, 10)⟩ 10 none (none, none)
        none none (some (100, 200))).1.net_rx_bps = none) := by
  have h : (collect_system_metrics ⟨none, some (0, 0, 10)⟩ 10 none
      (none, none) none none (some (100, 200))).1.net_rx_bps
      = some 100000 := by
    simp only [collect_system_metrics]
    rw [(sys_derived_preserves _).2.1]
    simp only [sys_net_rate, sys_cpu_rate, sys_base]
    norm_num [max_def]
  exact ⟨h, by rw [h]; simp⟩

/-- C6: for successive CPU counter samples with positive total-tick delta,
the emitted percentage is exactly `(1 - dt_idle/dt_total) * 100` clamped to
`[0, 100]`, and any emitted value lies in `[0, 100]`. -/
theorem c6_cpu_pct_formula (st : SysState) (now : ℚ)
    (load : Option (ℚ × ℚ × ℚ)) (meminfo : Option Int × Option Int)
    (disk : Option (Int × Int × Int)) (net : Option (Int × Int))
    (t1 i1 t2 i2 : Int) (hprev : st.prevCpu = some (t1, i1))
    (hge : t1 ≤ t2) (hpos : 0 < t2 - t1) :
    (collect_system_metrics st now load meminfo disk (some (t2, i2))
        net).1.cpu_usage_pct
      = some (max 0 (min 100
          ((1 - ((i2 - i1 : Int) : ℚ) / ((t2 - t1 : Int) : ℚ)) * 100))) ∧
    ∀ q, (collect_system_metrics st now load meminfo disk (some (t2, i2))
        net).1.cpu_usage_pct = some q → 0 ≤ q ∧ q ≤ 100 := by
  have hval : (collect_system_metrics st now load meminfo disk
      (some (t2, i2)) net).1.cpu_usage_pct
      = some (max 0 (min 100
          ((1 - ((i2 - i1 : Int) : ℚ) / ((t2 - t1 : Int) : ℚ)) * 100))) := by
    simp only [collect_system_metrics]
    rw [(sys_derived_preserves _).1, sys_net_rate_cpu, hprev]
    simp only [sys_cpu_rate]
    rw [if_pos hpos]
  refine ⟨hval, ?_⟩
  intro q hq
  rw [hval] at hq
  have hq' : q = max 0 (min 100
      ((1 - ((i2 - i1 : Int) : ℚ) / ((t2 - t1 : Int) : ℚ)) * 100)) := by
    exact (Option.some.injEq _ _).mp hq.symm
  subst hq'
  constructor
  · exact le_max_left _ _
  · exact max_le (by norm_num) (min_le_left _ _)

/-- C6 witness: samples `(total 100, idle 50)` then `(total 200, idle 100)`
yield exactly 50. -/
theorem c6_cpu_pct_formula_witness :
    (collect_system_metrics ⟨some (100, 50), none⟩ 0 none (none, none) none
        (some (200, 100)) none).1.cpu_usage_pct = some 50 ∧
    (0 : ℚ) ≤ 50 ∧ (50 : ℚ) ≤ 100 := by
  have h := c6_cpu_pct_formula ⟨some (100, 50), none⟩ 0 none (none, none)
      none none 100 50 200 100 rfl (by decide) (by decide)
  refine ⟨?_, by norm_num, by norm_num⟩
  rw [h.1]
  norm_num [max_def, min_def, Option.some.injEq]

/-- Helper: a line contributed under a presence guard determines a present
value. -/
theorem mem_opt_lines {α : Type} {o : Option α} {f : α → List MetricLine}
    {l : MetricLine} (h : l ∈ opt_lines o f) : ∃ v, o = some v ∧ l ∈ f v := by
  cases o with
  | none => simp [opt_lines] at h
  | some v => exact ⟨v, rfl, by simpa [opt_lines] using h⟩

/-- Helper: every line of the exposition either belongs to an
unconditional family or to a family whose guarding source value is
present. -/
theorem mem_metrics_lines_cases (ready : Bool) (gpu : Option GpuAgg)
    (sysm : SysMetrics) (vllm : VllmSignals) (l : MetricLine)
    (hl : l ∈ metrics_lines ready gpu sysm vllm) :
    l.name = "inventiv_worker_up" ∨
    l.name = "inventiv_worker_vllm_ready" ∨
    (vllm.queue_depth.isSome = true ∧
      l.name = "inventiv_worker_queue_depth") ∨
    (vllm.requests_running.isSome = true ∧
      l.name = "inventiv_worker_requests_running") ∨
    (vllm.requests_waiting.isSome = true ∧
      l.name = "inventiv_worker_requests_waiting") ∨
    (gpu.isSome = true ∧
      (l.name = "inventiv_worker_gpu_utilization" ∨
       l.name = "inventiv_worker_gpu_mem_used_mb" ∨
       l.name = "inventiv_worker_gpu_mem_total_mb" ∨
       l.name = "inventiv_worker_gpu_utilization_by_gpu" ∨
       l.name = "inventiv_worker_gpu_mem_used_mb_by_gpu")) ∨
    (sysm.cpu_usage_pct.isSome = true ∧
      l.name = "inventiv_worker_cpu_usage_pct") ∨
    (sysm.load1.isSome = true ∧ l.name = "inventiv_worker_load1") ∨
    (sysm.mem_used_bytes.isSome = true ∧
      l.name = "inventiv_worker_mem_used_bytes") ∨
    (sysm.mem_total_bytes.isSome = true ∧
      l.name = "inventiv_worker_mem_total_bytes") ∨
    (sysm.disk_used_bytes.isSome = true ∧
      l.name = "inventiv_worker_disk_used_bytes") ∨
    (sysm.disk_total_bytes.isSome = true ∧
      l.name = "inventiv_worker_disk_total_bytes") ∨
    (sysm.net_rx_bps.isSome = true ∧
      l.name = "inventiv_worker_net_rx_bps") ∨
    (sysm.net_tx_bps.isSome = true ∧
      l.name = "inventiv_worker_net_tx_bps") := by
  simp only [metrics_lines, List.mem_append, or_assoc] at hl
  rcases hl with h | h | h | h | h | h | h | h | h | h | h | h | h | h | h | h
  · simp only [List.mem_cons, List.not_mem_nil, or_false] at h
    rcases h with rfl | rfl | rfl | rfl | rfl | rfl <;> simp [MetricLine.name]
  all_goals
    obtain ⟨v, ho, hf⟩ := mem_opt_lines h
  all_goals
    simp only [List.mem_cons, List.mem_append, List.mem_map,
      List.not_mem_nil, or_false, or_assoc] at hf
  all_goals
    first
    | (rcases hf with rfl | rfl | rfl <;> simp [MetricLine.name, ho])
    | (rcases hf with rfl | rfl | ⟨e, he, rfl⟩ | rfl | rfl |
          ⟨e, he, rfl⟩ <;> simp [MetricLine.name, ho])

/-- C7: each metric family whose underlying source returned no data is
entirely absent from the exposition output — no line (HELP, TYPE or
sample) of that family is emitted. -/
theorem c7_exposition_omits_absent (ready : Bool) (gpu : Option GpuAgg)
    (sysm : SysMetrics) (vllm : VllmSignals) :
    (vllm.queue_depth = none → has_name "inventiv_worker_queue_depth"
      (metrics_lines ready gpu sysm vllm) = false) ∧
    (vllm.requests_running = none →
      has_name "inventiv_worker_requests_running"
        (metrics_lines ready gpu sysm vllm) = false) ∧
    (vllm.requests_waiting = none →
      has_name "inventiv_worker_requests_waiting"
        (metrics_lines ready gpu sysm vllm) = false) ∧
    (gpu = none →
      has_name "inventiv_worker_gpu_utilization"
        (metrics_lines ready gpu sysm vllm) = false ∧
      has_name "inventiv_worker_gpu_mem_used_mb"
        (metrics_lines ready gpu sysm vllm) = false ∧
      has_name "inventiv_worker_gpu_mem_total_mb"
        (metrics_lines ready gpu sysm vllm) = false ∧
      has_name "inventiv_worker_gpu_utilization_by_gpu"
        (metrics_lines ready gpu sysm vllm) = false ∧
      has_name "inventiv_worker_gpu_mem_used_mb_by_gpu"
        (metrics_lines ready gpu sysm vllm) = false) ∧
    (sysm.cpu_usage_pct = none → has_name "inventiv_worker_cpu_usage_pct"
      (metrics_lines ready gpu sysm vllm) = false) ∧
    (sysm.load1 = none → has_name "inventiv_worker_load1"
      (metrics_lines ready gpu sysm vllm) = false) ∧
    (sysm.mem_used_bytes = none → has_name "inventiv_worker_mem_used_bytes"
      (metrics_lines ready gpu sysm vllm) = false) ∧
    (sysm.mem_total_bytes = none →
      has_name "inventiv_worker_mem_total_bytes"
        (metrics_lines ready gpu sysm vllm) = false) ∧
    (sysm.disk_used_bytes = none →
      has_name "inventiv_worker_disk_used_bytes"
        (metrics_lines ready gpu sysm vllm) = false) ∧
    (sysm.disk_total_bytes = none →
      has_name "inventiv_worker_disk_total_bytes"
        (metrics_lines ready gpu sysm vllm) = false) ∧
    (sysm.net_rx_bps = none → has_name "inventiv_worker_net_rx_bps"
      (metrics_lines ready gpu sysm vllm) = false) ∧
    (sysm.net_tx_bps = none → has_name "inventiv_worker_net_tx_bps"
      (metrics_lines ready gpu sysm vllm) = false) := by
  refine ⟨fun h => ?_, fun h => ?_, fun h => ?_,
    fun h => ⟨?_, ?_, ?_, ?_, ?_⟩, fun h => ?_, fun h => ?_, fun h => ?_,
    fun h => ?_, fun h => ?_, fun h => ?_, fun h => ?_, fun h => ?_⟩
  all_goals
    simp only [has_name, List.any_eq_false]
    intro l hl
    have hc := mem_metrics_lines_cases ready gpu sysm vllm l hl
    rcases hc with hc | hc | ⟨hs, hc⟩ | ⟨hs, hc⟩ | ⟨hs, hc⟩ |
        ⟨hs, hc | hc | hc | hc | hc⟩ | ⟨hs, hc⟩ | ⟨hs, hc⟩ | ⟨hs, hc⟩ |
        ⟨hs, hc⟩ | ⟨hs, hc⟩ | ⟨hs, hc⟩ | ⟨hs, hc⟩ | ⟨hs, hc⟩ <;> simp_all

/-- C7 witness: with every optional source empty, a scrape contains no
queue-depth, GPU or network-rate line. -/
theorem c7_exposition_omits_absent_witness :
    has_name "inventiv_worker_queue_depth"
      (metrics_lines true none {} {}) = false ∧
    has_name "inventiv_worker_gpu_utilization"
      (metrics_lines true none {} {}) = false ∧
    has_name "inventiv_worker_net_rx_bps"
      (metrics_lines true none {} {}) = false := by
  have h := c7_exposition_omits_absent true none {} {}
  exact ⟨h.1 rfl, (h.2.2.2.1 rfl).1, h.2.2.2.2.2.2.2.2.2.2.1 rfl⟩

/-- C8 (amended): on a registration attempt and on a heartbeat cycle the
real `nvidia-smi` query is consulted first and the deterministic synthetic
GPU load (a function of the service queue depth) is used only when the
real query yields nothing; the `/metrics` exposition scrape consults only
the real query and never falls back to the synthetic sample. -/
theorem c8_gpu_source_selection (real : Option GpuAgg) (sc vr : Int)
    (v : VllmSignals) :
    (real = none →
      gpu_for_register real sc vr v = fake_gpu_metrics sc vr v ∧
      gpu_for_heartbeat real sc vr v = fake_gpu_metrics sc vr v) ∧
    (∀ g, real = some g →
      gpu_for_register real sc vr v = some g ∧
      gpu_for_heartbeat real sc vr v = some g) ∧
    gpu_for_scrape real = real := by
  refine ⟨?_, ?_, rfl⟩
  · rintro rfl
    exact ⟨rfl, rfl⟩
  · rintro g rfl
    exact ⟨rfl, rfl⟩

/-- C8 witness: with no real GPU and simulation enabled, registration and
heartbeat use the synthetic sample. -/
theorem c8_gpu_source_selection_witness :
    gpu_for_register none 1 24576 {} = fake_gpu_metrics 1 24576 {} ∧
    gpu_for_heartbeat none 1 24576 {} = fake_gpu_metrics 1 24576 {} :=
  (c8_gpu_source_selection none 1 24576 {}).1 rfl

/-- C8 counterexample: with simulation enabled (one simulated GPU) the
synthetic sample is non-empty, yet the exposition scrape's GPU sample is
empty when the real query yields nothing — the scrape does not fall back
as the claim states. -/
theorem c8_scrape_no_fallback_counterexample :
    (fake_gpu_metrics 1 24576 {}).isSome = true ∧
    gpu_for_scrape none = none := by
  exact ⟨rfl, rfl⟩

/-- Helper: a catch-all `try/except` never propagates an exception. -/
theorem py_try_isOk {α : Type} (body : Except Unit α) (d : α) :
    is_ok (py_try body d) = true := by
  cases body <;> rfl

/-- C9: every Sample Source reader is total at its interface — for every
environment outcome it returns a value (a populated partial structure or
an empty/`none` one) and never propagates an exception. -/
theorem c9_readers_total (sub f2 f3 f4 f6 : Except Unit String)
    (p : String) (du : Except Unit (Int × Int × Int)) :
    is_ok (try_nvidia_smi sub) = true ∧
    is_ok (read_proc_stat_cpu f2) = true ∧
    is_ok (read_meminfo f3) = true ∧
    is_ok (read_loadavg f4) = true ∧
    is_ok (disk_usage p du) = true ∧
    is_ok (read_netdev_totals f6) = true :=
  ⟨py_try_isOk _ _, py_try_isOk _ _, py_try_isOk _ _,
   py_try_isOk _ _, py_try_isOk _ _, py_try_isOk _ _⟩

/-- C10: the queue-depth field, when present, is the floor of
`max 0 requests_waiting` (hence a non-negative integer) with the waiting
field also present; and on a successful 200 response each of the waiting
and running fields equals the result of parsing its metric-name variants
from the upstream text. -/
theorem c10_vllm_signals (resp : Option (Nat × String)) :
    (∀ q, (collect_vllm_signals resp).queue_depth = some q →
      ∃ w, (collect_vllm_signals resp).requests_waiting = some w ∧
        q = Int.floor (max 0 w) ∧ 0 ≤ q) ∧
    (∀ txt, resp = some (200, txt) →
      (collect_vllm_signals resp).requests_waiting
        = parse_prometheus_metric txt vllm_waiting_names ∧
      (collect_vllm_signals resp).requests_running
        = parse_prometheus_metric txt vllm_running_names) := by
  constructor
  · intro q hq
    cases resp with
    | none => simp [collect_vllm_signals] at hq
    | some pr =>
      obtain ⟨st, txt⟩ := pr
      by_cases hst : st = 200
      · subst hst
        cases hw : parse_prometheus_metric txt vllm_waiting_names with
        | none => simp [collect_vllm_signals, hw] at hq
        | some w =>
          have hwt : (collect_vllm_signals
              (some (200, txt))).requests_waiting = some w := by
            simp [collect_vllm_signals, hw]
          have hqd : q = Int.floor (max 0 w) := by
            simp [collect_vllm_signals, hw] at hq
            exact hq.symm
          refine ⟨w, hwt, hqd, ?_⟩
          rw [hqd]
          exact Int.floor_nonneg.mpr (le_max_left 0 w)
      · simp [collect_vllm_signals, hst] at hq
  · rintro txt rfl
    constructor <;> simp [collect_vllm_signals]

/-- C10 witness: on a concrete 200 metrics response, the waiting and
running fields are exactly the results of parsing their metric-name
variants from the returned text. -/
theorem c10_vllm_signals_witness :
    (collect_vllm_signals
        (some (200, "vllm_num_requests_waiting 3"))).requests_waiting
      = parse_prometheus_metric "vllm_num_requests_waiting 3"
          vllm_waiting_names ∧
    (collect_vllm_signals
        (some (200, "vllm_num_requests_waiting 3"))).requests_running
      = parse_prometheus_metric "vllm_num_requests_waiting 3"
          vllm_running_names :=
  (c10_vllm_signals (some (200, "vllm_num_requests_waiting 3"))).2
    "vllm_num_requests_waiting 3" rfl
